import Mathlib

/-!
Verification of the PosterBot pipeline orchestrator and platform-publishing
protocol (shallow embedding of src/core/pipeline.py, src/core/distributor.py,
src/core/text_to_speech.py and the constructor signatures involved in
Pipeline.__init__).

External services (completion API, TTS endpoint, image search/generation,
video encoding, SMTP, the video platform) are modelled as oracles: per-run
functions supplying the outcome of each external call.  Every piece of
control flow that lives in the repository itself (the run loop, per-stage
falsiness checks, filename construction, cleanup ordering, the init/refresh
retry logic, the status-poll loop, caption truncation, sentence splitting)
is translated directly from the source.

Python conventions used throughout the embedding:
- a Python exception is an `Except.error`;
- Python truthiness of a string is non-emptiness of its character list
  (`str` is falsy iff empty); `None` is `Option.none`;
- Python string slicing `s[:n]` is `List.take n` on the character list;
  `f"{n:03d}"` is decimal digit characters left-padded with '0' to width 3.
-/

namespace PosterBot

/-- Python falsiness for an optional string: `None` and `""` are falsy. -/
def pyStrFalsy : Option String → Bool
  | none => true
  | some s => s.data.isEmpty

/-- src/core/pipeline.py line 186: one character of the safe-filename
translation: keep alphanumeric, space, hyphen, underscore; replace the rest
with an underscore.  Python's str.isalnum accepts Unicode alphanumerics;
Char.isAlphanum is its ASCII restriction, so this definition agrees with
the source on ASCII subjects and replaces non-ASCII alphanumerics that
Python would keep — none of the properties proved here rests on the
sanitization of non-ASCII characters. -/
def sanitizeChar (c : Char) : Char :=
  if c.isAlphanum || c = ' ' || c = '-' || c = '_' then c else '_'

/-- src/core/pipeline.py lines 186-187: sanitize the subject and truncate to
50 characters (safe_name = "".join(...)[:50]). -/
def sanitizeChars (s : String) : List Char :=
  (s.data.map sanitizeChar).take 50

/-- Character for a decimal digit d (d < 10): chr(48 + d). -/
def digitChar (d : Nat) : Char := Char.ofNat (48 + d)

/-- Decimal digit characters of n, most significant first, fuel-driven so
that the kernel can evaluate it.  With fuel > n the fuel never runs out. -/
def decCharsAux : Nat → Nat → List Char
  | 0, _ => []
  | fuel + 1, n =>
    if n < 10 then [digitChar n]
    else decCharsAux fuel (n / 10) ++ [digitChar (n % 10)]

/-- Decimal representation of n as characters (repr(n)). -/
def decChars (n : Nat) : List Char := decCharsAux (n + 1) n

/-- src/core/pipeline.py line 188: f"{iteration_num:03d}" — decimal digits
left-padded with '0' to a minimum width of 3. -/
def pad3chars (n : Nat) : List Char :=
  List.replicate (3 - (decChars n).length) '0' ++ decChars n

/-- Config.VIDEOS_DIR plus the path separator, as used by
os.path.join(Config.VIDEOS_DIR, f"{output_name}.mp4") in
src/core/video_composer.py line 65. -/
def videosDirChars : List Char := "output/videos/".data

/-- The output path of a successful run: VIDEOS_DIR joined with
f"{iteration_num:03d}_{safe_name}.mp4" (pipeline.py line 188 together with
video_composer.py line 65). -/
def videoPath (iterationNum : Nat) (subject : String) : String :=
  String.mk (videosDirChars ++ pad3chars iterationNum ++
    '_' :: sanitizeChars subject ++ ".mp4".data)

/-- The idea dict returned by ContentIdeaGenerator.generate_idea: possibly
missing "subject"/"concept" keys (idea.get with defaults, pipeline.py
lines 142-143). -/
structure Idea where
  subjectKey : Option String
  conceptKey : Option String
deriving DecidableEq

/-- idea.get("subject", "Unknown") (pipeline.py line 142). -/
def Idea.subjectVal (idea : Idea) : String := idea.subjectKey.getD "Unknown"

/-- The transient-file state the orchestrator manipulates: the files in
Config.AUDIO_DIR, the files in Config.IMAGES_DIR, and whether the
combined_output.wav intermediate exists (pipeline.py lines 57-82). -/
structure FSState where
  audio : List String
  images : List String
  combined : Bool
deriving DecidableEq

/-- Both working directories empty and no combined-audio intermediate. -/
def fsEmpty : FSState := ⟨[], [], false⟩

/-- src/core/pipeline.py lines 57-82, _cleanup_temp_files: inside one
try-block, delete every file of the audio directory, then every file of the
images directory, then the combined_output.wav file; an exception is caught
and logged.  `none` means the try-block ran to completion; `some k` means an
exception was raised after k of the three sub-steps had completed. -/
def applyCleanup : Option Nat → FSState → FSState
  | none, _ => fsEmpty
  | some k, fs =>
    { audio := if 1 ≤ k then [] else fs.audio
      images := if 2 ≤ k then [] else fs.images
      combined := if 3 ≤ k then false else fs.combined }

/-- Oracles for the external calls made during one run, indexed by the
0-based loop variable i of Pipeline.run (pipeline.py line 108).
An `Except.error` is a Python exception escaping the stage call. -/
structure StageOracles where
  /-- idea_generator.generate_idea: `none` is a falsy result (None or {}). -/
  genIdea : Nat → Except String (Option Idea)
  /-- story_writer.write_script: may return None or a (possibly empty) string. -/
  writeScript : Nat → Except String (Option String)
  /-- tts.generate_audio: (durations, sentences). -/
  genAudio : Nat → Except String (List Nat × List String)
  /-- files left in Config.AUDIO_DIR by a successful generate_audio call. -/
  audioFiles : Nat → List String
  /-- media_collector.collect_media: the collected image paths. -/
  collectMedia : Nat → Except String (List String)
  /-- files left in Config.IMAGES_DIR by a successful collect_media call. -/
  imageFiles : Nat → List String
  /-- video_composer.create_video: the encoding side effect; on success the
  returned path is the deterministic output path embedded as videoPath. -/
  composeVideo : Nat → Except String Unit
  /-- outcome of the _cleanup_temp_files try-block, see applyCleanup. -/
  cleanupErrAfter : Nat → Option Nat
  /-- distributor.distribute: success boolean, or an exception. -/
  distribute : Nat → Except String Bool

/-- src/core/pipeline.py lines 128-222, Pipeline._run_single_iteration,
with i the 0-based loop index (iteration_num = i + 1).  Returns the
method's outcome (exception / None / video path) and the transient-file
state after the iteration.  Stages that abort the run leave the directory
state as it was at the point of abort; the directory contents written by a
stage that itself raised are not tracked (no claim depends on them).
Each stage call's outcome is taken from the oracle; the outcome actually
reachable through the source call sites is obtained by instantiating the
oracles through pyOracles further down: the collect_media call at lines
170-175 passes script= and sentences= keyword arguments that
MediaCollector.collect_media (media_collector.py line 26) does not accept,
so under Python keyword binding that call raises TypeError before the
collector's body can run. -/
def runSingleIteration (o : StageOracles) (i : Nat) :
    Except String (Option String) × (FSState → FSState) :=
  match o.genIdea i with
  | .error e => (.error e, fun fs => fs)
  | .ok none => (.ok none, fun fs => fs)         -- "if not idea" (line 138)
  | .ok (some idea) =>
    match o.writeScript i with
    | .error e => (.error e, fun fs => fs)
    | .ok script =>
      if pyStrFalsy script then (.ok none, fun fs => fs) -- "if not script"
      else
        match o.genAudio i with
        | .error e => (.error e, fun fs => fs)
        | .ok (durations, _sentences) =>
          -- generate_audio recreates AUDIO_DIR and writes one file per
          -- synthesized sentence, plus combined_output.wav when any
          -- segment was produced (text_to_speech.py lines 32-75)
          let upd1 : FSState → FSState := fun fs =>
            { audio := o.audioFiles i, images := fs.images
              combined := !durations.isEmpty }
          if durations.isEmpty then (.ok none, upd1)  -- "if not durations"
          else
            match o.collectMedia i with
            | .error e => (.error e, upd1)
            | .ok imagePaths =>
              -- collect_media recreates IMAGES_DIR and writes the
              -- collected files (media_collector.py lines 45-48)
              let upd2 : FSState → FSState := fun fs =>
                { upd1 fs with images := o.imageFiles i }
              if imagePaths.isEmpty then (.ok none, upd2) -- "if not image_paths"
              else
                match o.composeVideo i with
                | .error e => (.error e, upd2)
                | .ok _ =>
                  let path := videoPath (i + 1) idea.subjectVal
                  if path.data.isEmpty then (.ok none, upd2) -- "if not video_path"
                  else
                    let upd3 : FSState → FSState := fun fs =>
                      applyCleanup (o.cleanupErrAfter i) (upd2 fs)
                    match o.distribute i with
                    | .error e => (.error e, upd3)
                    | .ok _success => (.ok (some path), upd3)

/-- src/core/pipeline.py lines 106-126: the run loop over the given list of
loop indices, threading the transient-file state; an iteration raising an
exception is caught (line 118) and contributes no artifact; a falsy
video_path is not appended (line 115). -/
def pipelineRunAux (o : StageOracles) : List Nat → FSState → List String × FSState
  | [], fs => ([], fs)
  | i :: rest, fs =>
    let step := runSingleIteration o i
    let tail := pipelineRunAux o rest (step.2 fs)
    match step.1 with
    | .ok (some p) => (p :: tail.1, tail.2)
    | _ => tail

/-- src/core/pipeline.py Pipeline.run: iterate i over range(iterations) and
return the list of created video paths.  The return type is a plain list:
by construction no exception raised inside an iteration escapes the loop. -/
def pipelineRun (o : StageOracles) (fs : FSState) (iterations : Nat) : List String :=
  (pipelineRunAux o (List.range iterations) fs).1

/-- The artifact contributed by one iteration (exception or falsy result
contribute nothing). -/
def artifactOf : Except String (Option String) → Option String
  | .ok (some p) => some p
  | _ => none

/-- The artifact of run i (independent of the directory state by
construction: the result component of runSingleIteration never reads it). -/
def iterArtifact (o : StageOracles) (i : Nat) : Option String :=
  artifactOf (runSingleIteration o i).1

/-! ### Distributor: TikTok upload initialization with one-shot refresh
(src/core/distributor.py lines 117-225) -/

/-- One response of the platform's Init endpoint as seen by
_init_tiktok_upload: a raised request exception, or an HTTP response with a
status code and an optional "data" object carrying the optional publish_id
and upload_url fields. -/
inductive InitResp
  | exc
  | resp (statusCode : Nat) (data : Option (Option String × Option String))
deriving DecidableEq

/-- One response of the token endpoint as seen by _refresh_tiktok_token: a
raised request exception, or a JSON body that does or does not contain an
"access_token" field. -/
inductive RefreshResp
  | exc
  | resp (hasAccessToken : Bool)
deriving DecidableEq

/-- Environment of one _post_to_tiktok attempt: credential presence and the
scripted responses of the init endpoint (indexed by init-call number) and of
the token endpoint (indexed by refresh-call number). -/
structure TikTokEnv where
  accessToken : Bool
  refreshToken : Bool
  initResp : Nat → InitResp
  refreshResp : Nat → RefreshResp

/-- src/core/distributor.py lines 117-159, _refresh_tiktok_token for the
call-th invocation: without a stored refresh token it fails before any
request; otherwise the token-endpoint exchange succeeds iff the response
carries an access_token (exceptions and token-less bodies yield False). -/
def refreshTiktokToken (env : TikTokEnv) (call : Nat) : Bool :=
  if !env.refreshToken then false
  else
    match env.refreshResp call with
    | .exc => false
    | .resp hasAccess => hasAccess

/-- Result and instrumentation of one _init_tiktok_upload invocation:
the returned (publish_id, upload_url) pair (`none` is the (None, None)
failure return), the number of HTTP requests sent to the init endpoint, and
the number of times the credential-refresh procedure was triggered. -/
structure InitTrace where
  result : Option (Option String × Option String)
  initCalls : Nat
  refreshCalls : Nat
deriving DecidableEq

/-- distributor.py lines 209-219: after the 401 handling,
response.raise_for_status() turns any status >= 400 into an exception that
the surrounding except-block converts to (None, None); otherwise the JSON
body yields (publish_id, upload_url) when a "data" object is present and
(None, None) when it is not. -/
def finishInit (statusCode : Nat) (data : Option (Option String × Option String)) :
    Option (Option String × Option String) :=
  if 400 ≤ statusCode then none
  else
    match data with
    | some pu => some pu
    | none => none

/-- src/core/distributor.py lines 161-225, _init_tiktok_upload: without an
access token, fail before any request; otherwise send Init; on a 401
response trigger the refresh procedure once and, only if it succeeded,
retry Init exactly once, then classify whatever response came back; a
failed refresh returns (None, None) with no retry. -/
def initTiktokUpload (env : TikTokEnv) : InitTrace :=
  if !env.accessToken then ⟨none, 0, 0⟩
  else
    match env.initResp 0 with
    | .exc => ⟨none, 1, 0⟩
    | .resp code data =>
      if code = 401 then
        if refreshTiktokToken env 0 then
          match env.initResp 1 with
          | .exc => ⟨none, 2, 1⟩
          | .resp code2 data2 => ⟨finishInit code2 data2, 2, 1⟩
        else ⟨none, 1, 1⟩
      else ⟨finishInit code data, 1, 0⟩

/-! ### Distributor: status polling (src/core/distributor.py lines 251-296) -/

/-- One response of the status endpoint as seen by _check_tiktok_status: a
raised request exception (or HTTP error status via raise_for_status), a
JSON body without a "data" object, or a "data" object with its optional
status string. -/
inductive StatusResp
  | exc
  | noData
  | data (status : Option String)
deriving DecidableEq

/-- A response that keeps the poll loop going: a "data" object whose status
is neither PUBLISH_COMPLETE nor FAILED. -/
def StatusResp.isNonTerminal : StatusResp → Bool
  | .data st => !(st == some "PUBLISH_COMPLETE") && !(st == some "FAILED")
  | _ => false

/-- src/core/distributor.py lines 267-293: the poll loop with the given
remaining attempts, where reqs requests have already been sent; returns the
boolean result together with the total number of requests sent.  Exceptions
and missing "data" return False immediately; PUBLISH_COMPLETE returns True;
FAILED returns False; any other status continues after the delay; an
exhausted budget returns False (timeout, line 295). -/
def checkStatusLoop (resp : Nat → StatusResp) : Nat → Nat → Bool × Nat
  | 0, reqs => (false, reqs)
  | fuel + 1, reqs =>
    match resp reqs with
    | .exc => (false, reqs + 1)
    | .noData => (false, reqs + 1)
    | .data st =>
      if st == some "PUBLISH_COMPLETE" then (true, reqs + 1)
      else if st == some "FAILED" then (false, reqs + 1)
      else checkStatusLoop resp fuel (reqs + 1)

/-- src/core/distributor.py line 251: _check_tiktok_status with its default
budget max_retries = 20. -/
def checkTiktokStatus (resp : Nat → StatusResp) : Bool × Nat :=
  checkStatusLoop resp 20 0

/-! ### Distributor: caption construction (src/core/distributor.py
lines 86-91) -/

/-- distributor.py line 90: the caption before truncation —
f"{title}\n\n{description}" if both are truthy, else whichever of the two
is truthy (title or description). -/
def rawCaption (title description : String) : String :=
  if !title.data.isEmpty && !description.data.isEmpty then
    String.mk (title.data ++ '\n' :: '\n' :: description.data)
  else if !title.data.isEmpty then title
  else description

/-- distributor.py line 91: caption[:2200] if caption else
"Posted by PosterBot" — the caption actually passed to the Init request. -/
def buildCaption (title description : String) : String :=
  let caption := rawCaption title description
  if caption.data.isEmpty then "Posted by PosterBot"
  else String.mk (caption.data.take 2200)

/-! ### TextToSpeech (src/core/text_to_speech.py) -/

/-- Python str.split(sep) for a single-character separator: every
occurrence of the separator starts a new piece; n separators give n + 1
pieces. -/
def splitOnChar (sep : Char) : List Char → List (List Char)
  | [] => [[]]
  | c :: rest =>
    let r := splitOnChar sep rest
    if c = sep then [] :: r
    else
      match r with
      | [] => [[c]]
      | h :: t => (c :: h) :: t

/-- Python str.strip(): drop leading and trailing whitespace. -/
def pyStrip (l : List Char) : List Char :=
  ((l.dropWhile Char.isWhitespace).reverse.dropWhile Char.isWhitespace).reverse

/-- src/core/text_to_speech.py lines 79-86, _split_sentences: replace
newlines with spaces (text.replace("\n", " ") — the pattern is a single
character, so a character map), split on '.', strip each piece, keep the
non-empty ones, and drop the last piece when it is shorter than 10
characters. -/
def splitSentences (text : String) : List String :=
  let cleaned := text.data.map (fun c => if c = '\n' then ' ' else c)
  let pieces := (splitOnChar '.' cleaned).map pyStrip
  let sentences := (pieces.filter (fun s => !s.isEmpty)).map String.mk
  match sentences.getLast? with
  | some last => if last.length < 10 then sentences.dropLast else sentences
  | none => sentences

/-- src/core/text_to_speech.py lines 16-77, generate_audio: synthesize each
sentence with the per-sentence TTS call (the oracle tts, indexed by
sentence position, returns the measured segment duration or raises); a
failed sentence is logged and skipped (the except/continue at lines 66-68),
every success appends its duration; returns (durations, sentences). -/
def generateAudio (tts : Nat → Except String Nat) (text : String) :
    List Nat × List String :=
  let sentences := splitSentences text
  let durations :=
    (List.range sentences.length).filterMap (fun i => (tts i).toOption)
  (durations, sentences)

/-! ### Pipeline.__init__ and Python keyword-argument binding
(src/core/pipeline.py lines 17-38 against the constructor signatures of the
six components) -/

/-- Python keyword-call compatibility: every keyword argument must name a
declared parameter (none of the constructors involved takes **kwargs). -/
def acceptsKwargs (params : List String) (kwargs : List String) : Bool :=
  kwargs.all (fun k => params.contains k)

/-- Parameters of ContentIdeaGenerator.__init__ (content_generator.py line 8). -/
def contentIdeaGeneratorParams : List String := ["api_key", "prompt_config"]

/-- Parameters of StoryWriter.__init__ (story_writer.py line 7). -/
def storyWriterParams : List String := ["api_key", "prompt_config"]

/-- Parameters of TextToSpeech.__init__ (text_to_speech.py line 11). -/
def textToSpeechParams : List String := ["api_key", "voice"]

/-- Parameters of MediaCollector.__init__ (media_collector.py line 17). -/
def mediaCollectorParams : List String :=
  ["target_width", "target_height", "image_source"]

/-- Parameters of VideoComposer.__init__ (video_composer.py line 10). -/
def videoComposerParams : List String := ["fps"]

/-- Parameters of Distributor.__init__ (distributor.py line 11). -/
def distributorParams : List String :=
  ["sender_email", "receiver_email", "app_password"]

/-- The two exception kinds Pipeline.__init__ can raise. -/
inductive PyError
  | typeError
  | valueError
deriving DecidableEq

/-- src/core/pipeline.py lines 17-38, Pipeline.__init__: a falsy
prompt_config raises ValueError (line 25); otherwise the six component
constructors are invoked in order with the written keyword arguments, and a
keyword not accepted by the callee raises TypeError at that call. -/
def pipelineInit (promptConfigTruthy : Bool) : Except PyError Unit :=
  if !promptConfigTruthy then .error .valueError
  else
    if !acceptsKwargs contentIdeaGeneratorParams ["prompt_config"] then
      .error .typeError
    else if !acceptsKwargs storyWriterParams ["prompt_config"] then
      .error .typeError
    else if !acceptsKwargs textToSpeechParams [] then
      .error .typeError
    else if !acceptsKwargs mediaCollectorParams ["prompt_config"] then
      .error .typeError
    else if !acceptsKwargs videoComposerParams [] then
      .error .typeError
    else if !acceptsKwargs distributorParams [] then
      .error .typeError
    else .ok ()

/-! ### The collect_media call site under Python keyword binding
(src/core/pipeline.py lines 170-175 against media_collector.py line 26) -/

/-- Keyword arguments written at the collect_media call site,
pipeline.py lines 170-175: count=, script=, sentences= (the subject is
passed positionally). -/
def collectMediaCallKwargs : List String := ["count", "script", "sentences"]

/-- Parameters of MediaCollector.collect_media (media_collector.py
line 26). -/
def collectMediaParams : List String :=
  ["query", "count", "media_type", "output_dir"]

/-- The exception Python raises when a call passes a keyword argument the
callee does not declare. -/
def collectMediaTypeError : String :=
  "TypeError: collect_media() got an unexpected keyword argument"

/-- The outcome of the collect_media call as written at pipeline.py
lines 170-175: script= and sentences= are not parameters of collect_media,
so Python keyword binding raises TypeError before the collector's body
runs, whatever the collector (the oracle) would have returned. -/
def collectMediaCall (o : StageOracles) (i : Nat) : Except String (List String) :=
  if acceptsKwargs collectMediaParams collectMediaCallKwargs then
    o.collectMedia i
  else .error collectMediaTypeError

/-- The stage oracles as reachable through the source call sites: identical
to o except that the media-collection stage's outcome is the call-site
keyword binding applied to it. -/
def pyOracles (o : StageOracles) : StageOracles :=
  { o with collectMedia := collectMediaCall o }

/-! ### Helper lemmas: decimal formatting and filename injectivity -/

/-- The digit-to-character map is inverted by subtracting 48 from the code. -/
theorem digitChar_toNat {d : Nat} (hd : d < 10) : (digitChar d).toNat = 48 + d := by
  interval_cases d <;> decide

/-- Digit characters satisfy Char.isDigit. -/
theorem digitChar_isDigit {d : Nat} (hd : d < 10) : (digitChar d).isDigit = true := by
  interval_cases d <;> decide

/-- Read a digit-character list back as a number (most significant first). -/
def parseChars (l : List Char) : Nat :=
  l.foldl (fun a c => a * 10 + (c.toNat - 48)) 0

theorem parseChars_append_singleton (l : List Char) (c : Char) :
    parseChars (l ++ [c]) = parseChars l * 10 + (c.toNat - 48) := by
  simp [parseChars, List.foldl_append]

/-- Every character produced by decCharsAux is a digit. -/
theorem decCharsAux_isDigit :
    ∀ (fuel n : Nat) (c : Char), c ∈ decCharsAux fuel n → c.isDigit = true := by
  intro fuel
  induction fuel with
  | zero => intro n c hc; simp [decCharsAux] at hc
  | succ f ih =>
    intro n c hc
    unfold decCharsAux at hc
    by_cases h10 : n < 10
    · simp [h10] at hc
      subst hc
      exact digitChar_isDigit h10
    · simp [h10] at hc
      rcases hc with hc | hc
      · exact ih _ _ hc
      · subst hc
        exact digitChar_isDigit (Nat.mod_lt _ (by norm_num))

/-- decCharsAux parses back to its argument when the fuel is sufficient. -/
theorem parseChars_decCharsAux :
    ∀ (fuel n : Nat), n < fuel → parseChars (decCharsAux fuel n) = n := by
  intro fuel
  induction fuel with
  | zero => intro n h; omega
  | succ f ih =>
    intro n h
    unfold decCharsAux
    by_cases h10 : n < 10
    · simp only [h10, if_true]
      simp [parseChars, digitChar_toNat h10]
    · simp only [h10, if_false]
      rw [parseChars_append_singleton]
      have hdiv : n / 10 < f := by
        have h1 : n / 10 < n := Nat.div_lt_self (by omega) (by norm_num)
        omega
      rw [ih _ hdiv, digitChar_toNat (Nat.mod_lt _ (by norm_num))]
      omega

theorem parseChars_decChars (n : Nat) : parseChars (decChars n) = n :=
  parseChars_decCharsAux (n + 1) n (Nat.lt_succ_self n)

/-- Leading zero characters do not change the parsed value. -/
theorem parseChars_replicate_zero (p : Nat) (l : List Char) :
    parseChars (List.replicate p '0' ++ l) = parseChars l := by
  induction p with
  | zero => simp
  | succ q ih =>
    rw [List.replicate_succ, List.cons_append]
    show List.foldl (fun a c => a * 10 + (c.toNat - 48)) (0 * 10 + ('0'.toNat - 48))
      (List.replicate q '0' ++ l) = parseChars l
    have h0 : 0 * 10 + ('0'.toNat - 48) = 0 := by decide
    rw [h0]
    exact ih

/-- The zero-padded index parses back to the index. -/
theorem parseChars_pad3chars (n : Nat) : parseChars (pad3chars n) = n := by
  rw [pad3chars, parseChars_replicate_zero, parseChars_decChars]

/-- Every character of the zero-padded index is a digit. -/
theorem pad3chars_isDigit (n : Nat) :
    ∀ c ∈ pad3chars n, c.isDigit = true := by
  intro c hc
  rw [pad3chars] at hc
  rcases List.mem_append.mp hc with hc | hc
  · have := List.eq_of_mem_replicate hc
    subst this
    decide
  · exact decCharsAux_isDigit _ _ _ hc

/-- takeWhile over a list of satisfying elements followed by a failing
element recovers exactly the prefix. -/
theorem takeWhile_append_cons {α : Type} (p : α → Bool) :
    ∀ (l : List α) (c : α) (r : List α), (∀ a ∈ l, p a = true) → p c = false →
      (l ++ c :: r).takeWhile p = l := by
  intro l
  induction l with
  | nil =>
    intro c r _ hc
    simp [List.takeWhile_cons, hc]
  | cons a t ih =>
    intro c r hl hc
    have ha : p a = true := hl a (List.mem_cons_self a t)
    simp only [List.cons_append, List.takeWhile_cons, ha, if_true]
    rw [ih c r (fun x hx => hl x (List.mem_cons_of_mem a hx)) hc]

/-- Distinct iteration numbers give distinct video paths, whatever the two
subjects are: the digit prefix before the underscore decodes the number. -/
theorem videoPath_index_inj {a b : Nat} {x y : String}
    (h : videoPath a x = videoPath b y) : a = b := by
  have hd : videosDirChars ++ (pad3chars a ++ '_' :: (sanitizeChars x ++ ".mp4".data))
      = videosDirChars ++ (pad3chars b ++ '_' :: (sanitizeChars y ++ ".mp4".data)) := by
    have := congrArg String.data h
    simpa [videoPath] using this
  have h2 := List.append_cancel_left hd
  have ha := takeWhile_append_cons Char.isDigit (pad3chars a) '_'
    (sanitizeChars x ++ ".mp4".data) (pad3chars_isDigit a) (by decide)
  have hb := takeWhile_append_cons Char.isDigit (pad3chars b) '_'
    (sanitizeChars y ++ ".mp4".data) (pad3chars_isDigit b) (by decide)
  have hpad : pad3chars a = pad3chars b := by
    rw [← ha, ← hb, h2]
  have := congrArg parseChars hpad
  rwa [parseChars_pad3chars, parseChars_pad3chars] at this

/-- The composed video path is never a falsy Python string. -/
theorem videoPath_data_not_empty (n : Nat) (s : String) :
    (videoPath n s).data.isEmpty = false := rfl

/-! ### Helper lemmas: the run loop as a filterMap over run indices -/

/-- The artifact list of the loop is the filterMap of the per-run artifacts:
each iteration is executed in order and contributes its artifact exactly
when it returns a truthy video path. -/
theorem pipelineRunAux_fst (o : StageOracles) :
    ∀ (l : List Nat) (fs : FSState),
      (pipelineRunAux o l fs).1 = l.filterMap (iterArtifact o) := by
  intro l
  induction l with
  | nil => intro fs; rfl
  | cons i rest ih =>
    intro fs
    show (match (runSingleIteration o i).1 with
      | .ok (some p) =>
        (p :: (pipelineRunAux o rest ((runSingleIteration o i).2 fs)).1,
          (pipelineRunAux o rest ((runSingleIteration o i).2 fs)).2)
      | _ => pipelineRunAux o rest ((runSingleIteration o i).2 fs)).1
      = List.filterMap (iterArtifact o) (i :: rest)
    rw [List.filterMap_cons]
    rcases hr : (runSingleIteration o i).1 with e | p?
    · have : iterArtifact o i = none := by simp [iterArtifact, artifactOf, hr]
      rw [this]
      simpa using ih _
    · rcases p? with _ | p
      · have : iterArtifact o i = none := by simp [iterArtifact, artifactOf, hr]
        rw [this]
        simpa using ih _
      · have : iterArtifact o i = some p := by simp [iterArtifact, artifactOf, hr]
        rw [this]
        simpa using congrArg (List.cons p) (ih _)

/-- Pipeline.run produces exactly the artifacts of its count iterations, in
run order. -/
theorem pipelineRun_eq_filterMap (o : StageOracles) (fs : FSState) (count : Nat) :
    pipelineRun o fs count = (List.range count).filterMap (iterArtifact o) :=
  pipelineRunAux_fst o (List.range count) fs

/-- Dropping none-elements first does not change a filterMap. -/
theorem filterMap_filter_of_none {α β : Type} (p : α → Bool) (f : α → Option β) :
    ∀ l : List α, (∀ x ∈ l, p x = false → f x = none) →
      (l.filter p).filterMap f = l.filterMap f := by
  intro l
  induction l with
  | nil => intro _; rfl
  | cons a t ih =>
    intro h
    have ht := ih (fun x hx => h x (List.mem_cons_of_mem a hx))
    by_cases hp : p a = true
    · rw [List.filter_cons_of_pos hp, List.filterMap_cons, List.filterMap_cons]
      cases f a <;> simp [ht]
    · have hpa : p a = false := by simpa using hp
      have hfa : f a = none := h a (List.mem_cons_self a t) hpa
      rw [List.filter_cons_of_neg (by simp [hpa]), List.filterMap_cons, hfa, ht]

/-- When every stage call of run i succeeds with truthy results, the run
contributes exactly the indexed video path (whatever boolean the
distributor returned). -/
theorem iterArtifact_of_success {o : StageOracles} {i : Nat} {idea : Idea}
    {script : Option String} {durations : List Nat} {sentences : List String}
    {imagePaths : List String} {b : Bool}
    (h1 : o.genIdea i = .ok (some idea))
    (h2 : o.writeScript i = .ok script) (h2f : pyStrFalsy script = false)
    (h3 : o.genAudio i = .ok (durations, sentences))
    (h3e : durations.isEmpty = false)
    (h4 : o.collectMedia i = .ok imagePaths) (h4e : imagePaths.isEmpty = false)
    (h5 : o.composeVideo i = .ok ())
    (h6 : o.distribute i = .ok b) :
    iterArtifact o i = some (videoPath (i + 1) idea.subjectVal) := by
  unfold iterArtifact artifactOf runSingleIteration
  simp only [h1, h2, h2f, h3, h3e, h4, h4e, h5, h6, videoPath_data_not_empty,
    Bool.false_eq_true, if_false]

/-- The same, for the raw result of the iteration. -/
theorem runSingleIteration_of_success {o : StageOracles} {i : Nat} {idea : Idea}
    {script : Option String} {durations : List Nat} {sentences : List String}
    {imagePaths : List String} {b : Bool}
    (h1 : o.genIdea i = .ok (some idea))
    (h2 : o.writeScript i = .ok script) (h2f : pyStrFalsy script = false)
    (h3 : o.genAudio i = .ok (durations, sentences))
    (h3e : durations.isEmpty = false)
    (h4 : o.collectMedia i = .ok imagePaths) (h4e : imagePaths.isEmpty = false)
    (h5 : o.composeVideo i = .ok ())
    (h6 : o.distribute i = .ok b) :
    (runSingleIteration o i).1 = .ok (some (videoPath (i + 1) idea.subjectVal)) := by
  unfold runSingleIteration
  simp only [h1, h2, h2f, h3, h3e, h4, h4e, h5, h6, videoPath_data_not_empty,
    Bool.false_eq_true, if_false]

/-- A produced artifact always has the shape of a run-indexed video path. -/
theorem iterArtifact_shape {o : StageOracles} {j : Nat} {p : String}
    (h : iterArtifact o j = some p) : ∃ s, p = videoPath (j + 1) s := by
  unfold iterArtifact artifactOf runSingleIteration at h
  rcases h1 : o.genIdea j with e | idea?
  · simp [h1] at h
  rcases idea? with _ | idea
  · simp [h1] at h
  simp only [h1] at h
  rcases h2 : o.writeScript j with e | script
  · simp [h2] at h
  simp only [h2] at h
  by_cases h3 : pyStrFalsy script = true
  · simp [h3] at h
  simp only [h3, if_false, Bool.false_eq_true] at h
  rcases h4 : o.genAudio j with e | pr
  · simp [h4] at h
  rcases pr with ⟨durations, sentences⟩
  simp only [h4] at h
  by_cases h5 : durations.isEmpty = true
  · simp [h5] at h
  simp only [h5, if_false, Bool.false_eq_true] at h
  rcases h6 : o.collectMedia j with e | imagePaths
  · simp [h6] at h
  simp only [h6] at h
  by_cases h7 : imagePaths.isEmpty = true
  · simp [h7] at h
  simp only [h7, if_false, Bool.false_eq_true] at h
  rcases h8 : o.composeVideo j with e | u
  · simp [h8] at h
  simp only [h8] at h
  simp only [videoPath_data_not_empty, if_false, Bool.false_eq_true] at h
  rcases h9 : o.distribute j with e | b
  · simp [h9] at h
  simp only [h9] at h
  injection h with h
  exact ⟨idea.subjectVal, h.symm⟩

/-- A run that contributed an artifact had every stage call succeed with
truthy results. -/
theorem iterArtifact_some_success {o : StageOracles} {j : Nat} {p : String}
    (h : iterArtifact o j = some p) :
    ∃ idea script durations sentences imagePaths,
      o.genIdea j = .ok (some idea) ∧
      o.writeScript j = .ok script ∧ pyStrFalsy script = false ∧
      o.genAudio j = .ok (durations, sentences) ∧ durations.isEmpty = false ∧
      o.collectMedia j = .ok imagePaths ∧ imagePaths.isEmpty = false ∧
      o.composeVideo j = .ok () ∧ (∃ b, o.distribute j = .ok b) := by
  unfold iterArtifact artifactOf runSingleIteration at h
  rcases h1 : o.genIdea j with e | idea?
  · simp [h1] at h
  rcases idea? with _ | idea
  · simp [h1] at h
  simp only [h1] at h
  rcases h2 : o.writeScript j with e | script
  · simp [h2] at h
  simp only [h2] at h
  by_cases h3 : pyStrFalsy script = true
  · simp [h3] at h
  simp only [h3, if_false, Bool.false_eq_true] at h
  rcases h4 : o.genAudio j with e | pr
  · simp [h4] at h
  rcases pr with ⟨durations, sentences⟩
  simp only [h4] at h
  by_cases h5 : durations.isEmpty = true
  · simp [h5] at h
  simp only [h5, if_false, Bool.false_eq_true] at h
  rcases h6 : o.collectMedia j with e | imagePaths
  · simp [h6] at h
  simp only [h6] at h
  by_cases h7 : imagePaths.isEmpty = true
  · simp [h7] at h
  simp only [h7, if_false, Bool.false_eq_true] at h
  rcases h8 : o.composeVideo j with e | u
  · simp [h8] at h
  simp only [h8] at h
  simp only [videoPath_data_not_empty, if_false, Bool.false_eq_true] at h
  rcases h9 : o.distribute j with e | b
  · simp [h9] at h
  exact ⟨idea, script, durations, sentences, imagePaths, rfl, rfl,
    by simpa using h3, rfl, by simpa using h5, rfl, by simpa using h7,
    rfl, ⟨b, rfl⟩⟩

/-- The ways a run can abort: a stage raising, or returning a falsy result
(None, empty string, empty list, empty durations).  The distributor
raising also aborts the run (the video is then not appended); the
distributor merely returning False does not appear here. -/
def stageFails (o : StageOracles) (i : Nat) : Prop :=
  (∃ e, o.genIdea i = .error e) ∨ o.genIdea i = .ok none ∨
  (∃ e, o.writeScript i = .error e) ∨
  (∃ s, o.writeScript i = .ok s ∧ pyStrFalsy s = true) ∨
  (∃ e, o.genAudio i = .error e) ∨
  (∃ r, o.genAudio i = .ok r ∧ r.1.isEmpty = true) ∨
  (∃ e, o.collectMedia i = .error e) ∨
  (∃ l, o.collectMedia i = .ok l ∧ l.isEmpty = true) ∨
  (∃ e, o.composeVideo i = .error e) ∨
  (∃ e, o.distribute i = .error e)

/-- A failing run contributes no artifact. -/
theorem stageFails_artifact_none {o : StageOracles} {i : Nat}
    (hf : stageFails o i) : iterArtifact o i = none := by
  rcases hart : iterArtifact o i with _ | p
  · rfl
  exfalso
  rcases iterArtifact_some_success hart with
    ⟨idea, script, durations, sentences, imagePaths, h1, h2, h2f, h3, h3e,
      h4, h4e, h5, b, h6⟩
  rcases hf with ⟨e, he⟩ | he | ⟨e, he⟩ | ⟨s, he, hs⟩ | ⟨e, he⟩ | ⟨r, he, hr⟩
    | ⟨e, he⟩ | ⟨l, he, hl⟩ | ⟨e, he⟩ | ⟨e, he⟩
  · rw [he] at h1; exact Except.noConfusion h1
  · rw [he] at h1
    injection h1 with h1
    exact Option.noConfusion h1
  · rw [he] at h2; exact Except.noConfusion h2
  · rw [he] at h2
    injection h2 with h2
    rw [h2] at hs
    rw [hs] at h2f
    exact Bool.noConfusion h2f
  · rw [he] at h3; exact Except.noConfusion h3
  · rw [he] at h3
    injection h3 with h3
    rw [h3] at hr
    simp only [] at hr
    rw [hr] at h3e
    exact Bool.noConfusion h3e
  · rw [he] at h4; exact Except.noConfusion h4
  · rw [he] at h4
    injection h4 with h4
    rw [h4] at hl
    rw [hl] at h4e
    exact Bool.noConfusion h4e
  · rw [he] at h5; exact Except.noConfusion h5
  · rw [he] at h6; exact Except.noConfusion h6

/-- The collect_media call raises for every oracle behavior: the script=
and sentences= keywords are rejected by the callee's parameter list. -/
theorem collectMediaCall_raises (o : StageOracles) (i : Nat) :
    collectMediaCall o i = .error collectMediaTypeError := rfl

/-- Under the call-site keyword binding, no run ever contributes an
artifact: every run aborts at the media-collection stage. -/
theorem pyOracles_iterArtifact_none (o : StageOracles) (i : Nat) :
    iterArtifact (pyOracles o) i = none := by
  rcases hart : iterArtifact (pyOracles o) i with _ | p
  · rfl
  exfalso
  rcases iterArtifact_some_success hart with ⟨idea, script, durations,
    sentences, imagePaths, h1, h2, h2f, h3, h3e, h4, h4e, h5, b, h6⟩
  have hcall : (pyOracles o).collectMedia i = .error collectMediaTypeError :=
    collectMediaCall_raises o i
  rw [h4] at hcall
  exact Except.noConfusion hcall

/-- Under the call-site keyword binding, Pipeline.run returns the empty
list for every count, every oracle behavior and every starting directory
state. -/
theorem pyOracles_pipelineRun_nil (o : StageOracles) (fs : FSState)
    (count : Nat) : pipelineRun (pyOracles o) fs count = [] := by
  rw [pipelineRun_eq_filterMap]
  have h : ∀ l : List Nat, l.filterMap (iterArtifact (pyOracles o)) = [] := by
    intro l
    induction l with
    | nil => rfl
    | cons a t ih =>
      rw [List.filterMap_cons, pyOracles_iterArtifact_none]
      exact ih
  exact h _

/-- The artifact list of a batch is duplicate-free: distinct runs have
distinct iteration numbers, which the filename encodes. -/
theorem pipelineRun_nodup (o : StageOracles) (fs : FSState) (count : Nat) :
    (pipelineRun o fs count).Nodup := by
  rw [pipelineRun_eq_filterMap]
  refine List.Nodup.filterMap ?_ (List.nodup_range count)
  intro a a' b hb hb'
  have ha := iterArtifact_shape (Option.mem_def.mp hb)
  have ha' := iterArtifact_shape (Option.mem_def.mp hb')
  rcases ha with ⟨s, hs⟩
  rcases ha' with ⟨s', hs'⟩
  have : videoPath (a + 1) s = videoPath (a' + 1) s' := by rw [← hs, ← hs']
  have := videoPath_index_inj this
  omega

/-! ### Claim theorems -/

/-- C1: a stage of run i returning an empty/falsy result or raising an
exception aborts only run i: run i contributes no artifact, and the batch
result is exactly the artifacts of all other runs, each still executed in
order.  No exception escapes Pipeline.run: its embedding returns a plain
list for every oracle behavior, because the per-iteration except-block
(pipeline.py line 118) converts exceptions into a skipped iteration. -/
theorem run_failure_isolated (o : StageOracles) (fs : FSState) (count i : Nat)
    (hi : i < count) (hf : stageFails o i) :
    pipelineRun o fs count =
      ((List.range count).filter (fun j => j != i)).filterMap (iterArtifact o) := by
  rw [pipelineRun_eq_filterMap]
  refine (filterMap_filter_of_none _ _ _ ?_).symm
  intro x hx hpx
  have hxi : x = i := by simpa using hpx
  rw [hxi]
  exact stageFails_artifact_none hf

/-- Oracles of a batch whose run 0 fails at the script stage (a falsy
result) while run 1 succeeds at every stage. -/
def oFailThenOk : StageOracles :=
  { genIdea := fun _ => .ok (some ⟨some "Porsche 996", some "Most hated 911"⟩)
    writeScript := fun i => if i = 0 then .ok none else .ok (some "The script.")
    genAudio := fun _ => .ok ([2, 3], ["The script", "more text"])
    audioFiles := fun _ => ["audio_0.mp3", "audio_1.mp3"]
    collectMedia := fun _ => .ok ["image_0.jpg", "image_1.jpg"]
    imageFiles := fun _ => ["image_0.jpg", "image_1.jpg"]
    composeVideo := fun _ => .ok ()
    cleanupErrAfter := fun _ => none
    distribute := fun _ => .ok true }

/-- Witness for C1 at a concrete batch of 2 runs whose first run fails. -/
theorem run_failure_isolated_witness :
    pipelineRun oFailThenOk fsEmpty 2 =
      ((List.range 2).filter (fun j => j != 0)).filterMap (iterArtifact oFailThenOk) :=
  run_failure_isolated oFailThenOk fsEmpty 2 0 (by decide)
    (Or.inr (Or.inr (Or.inr (Or.inl ⟨none, rfl, rfl⟩))))

/-- Oracles under which every external service of every run succeeds, with
subject "Porsche 996!" (note the character needing sanitization). -/
def oAllOk : StageOracles :=
  { genIdea := fun _ => .ok (some ⟨some "Porsche 996!", some "Most hated 911"⟩)
    writeScript := fun _ => .ok (some "The script.")
    genAudio := fun _ => .ok ([2, 3], ["The script", "more text"])
    audioFiles := fun _ => ["audio_0.mp3", "audio_1.mp3"]
    collectMedia := fun _ => .ok ["image_0.jpg", "image_1.jpg"]
    imageFiles := fun _ => ["image_0.jpg", "image_1.jpg"]
    composeVideo := fun _ => .ok ()
    cleanupErrAfter := fun _ => none
    distribute := fun _ => .ok true }

/-- C2 (code bug): the all-six-stages-succeed scenario is unreachable in
the source: the collect_media call written at pipeline.py lines 170-175
passes script= and sentences= keyword arguments that
MediaCollector.collect_media (media_collector.py line 26: query, count,
media_type, output_dir) does not accept, so Python raises TypeError at
every such call and Pipeline.run returns the empty list for every count,
every oracle behavior and every starting state — no run can have all six
stage adapters succeed, hence no {index:03d}_{sanitized_subject} artifact
is ever produced. -/
theorem collect_media_call_always_raises (o : StageOracles) (fs : FSState)
    (count : Nat) :
    (∀ i, collectMediaCall o i = .error collectMediaTypeError) ∧
    pipelineRun (pyOracles o) fs count = [] :=
  ⟨fun i => collectMediaCall_raises o i, pyOracles_pipelineRun_nil o fs count⟩

/-- Oracles where every external service succeeds but distribution would
return False. -/
def oPublishFails : StageOracles :=
  { oAllOk with distribute := fun _ => .ok false }

/-- C3 (code bug): the produced-but-publish-failed scenario is unreachable
in the source: under the call-site keyword binding no run contributes an
artifact at all — every run aborts with the collect_media TypeError before
the distributor is ever invoked, even when the distributor would have
returned False and every external service succeeds. -/
theorem publisher_never_reached (o : StageOracles) :
    (∀ i, iterArtifact (pyOracles o) i = none) ∧
    (runSingleIteration (pyOracles oPublishFails) 0).1 =
      .error collectMediaTypeError := by
  refine ⟨fun i => pyOracles_iterArtifact_none o i, ?_⟩
  rfl

/-- C4 (code bug): the cleanup-before-publish scenario is unreachable in
the source: with the idea, script and narration services succeeding, the
run aborts at the collect_media call with TypeError, so VideoComposer never
succeeds, _cleanup_temp_files never runs (the image working directory is
left exactly as it was) and the distributor is never invoked. -/
theorem cleanup_never_reached :
    (runSingleIteration (pyOracles oAllOk) 0).1 =
      .error collectMediaTypeError ∧
    (runSingleIteration (pyOracles oAllOk) 0).2 ⟨["old.mp3"], ["old.jpg"], true⟩ =
      ⟨["audio_0.mp3", "audio_1.mp3"], ["old.jpg"], true⟩ := by
  constructor <;> rfl

/-- A second invocation with the same subject but a different external
world (different script text). -/
def oAllOkSecond : StageOracles :=
  { oAllOk with writeScript := fun _ => .ok (some "A different script.") }

/-- C9 counterexample: two separate Pipeline.run invocations with count = 1
and identical Idea.subject produce NO artifacts at all — both result lists
are empty, because every run aborts with the TypeError raised by the
collect_media call — so they do not produce two artifacts with distinct
run-index-derived filenames.  (The second invocation starts from the
directory state the first one left behind.) -/
theorem rerun_no_artifacts_counterexample :
    pipelineRun (pyOracles oAllOk) fsEmpty 1 = [] ∧
    pipelineRun (pyOracles oAllOkSecond)
      (pipelineRunAux (pyOracles oAllOk) (List.range 1) fsEmpty).2 1 = [] := by
  constructor <;> rfl

/-- C9 amended: running the pipeline twice with the same ContentConfig and
count = 1 produces no artifacts at all: both invocations return the empty
list (every run aborts with the collect_media TypeError), the two outputs
are identical, and in particular no two distinct run-index-derived
filenames arise. -/
theorem rerun_both_batches_empty (o1 o2 : StageOracles)
    (fs1 fs2 : FSState) :
    pipelineRun (pyOracles o1) fs1 1 = [] ∧
    pipelineRun (pyOracles o2) fs2 1 = [] ∧
    pipelineRun (pyOracles o1) fs1 1 = pipelineRun (pyOracles o2) fs2 1 :=
  ⟨pyOracles_pipelineRun_nil o1 fs1 1, pyOracles_pipelineRun_nil o2 fs2 1, by
    rw [pyOracles_pipelineRun_nil, pyOracles_pipelineRun_nil]⟩


/-- Environment for C5's counterexample: the Init request is answered 401,
the refresh token is present, but the token endpoint answers without an
access_token, so the refresh fails. -/
def envRefreshFails : TikTokEnv :=
  { accessToken := true
    refreshToken := true
    initResp := fun _ => .resp 401 none
    refreshResp := fun _ => .resp false }

/-- C5 counterexample: with the Init request answered by an authorization
failure and a failing refresh, exactly one refresh call is made but ZERO
retried Init calls (the total Init count stays 1), refuting the claim that
exactly one retried Init call is always made; the attempt is terminal. -/
theorem init_auth_retry_counterexample :
    initTiktokUpload envRefreshFails = ⟨none, 1, 1⟩ ∧
    (initTiktokUpload envRefreshFails).initCalls ≠ 2 := by
  constructor <;> decide

/-- C5 amended: when the Init request is answered with an authorization
failure (HTTP 401), exactly one credential-refresh call is made; if the
refresh succeeds, exactly one retried Init call follows, and a second
authorization failure on the retry is terminal (failure result); if the
refresh fails, the attempt is terminal immediately with NO retried Init
call; in every case there is no second refresh and never a third Init
request. -/
theorem init_auth_retry_policy (env : TikTokEnv)
    (d : Option (Option String × Option String))
    (htok : env.accessToken = true)
    (h401 : env.initResp 0 = .resp 401 d) :
    (initTiktokUpload env).refreshCalls = 1 ∧
    (refreshTiktokToken env 0 = true →
      (initTiktokUpload env).initCalls = 2 ∧
      (∀ d2, env.initResp 1 = .resp 401 d2 →
        (initTiktokUpload env).result = none)) ∧
    (refreshTiktokToken env 0 = false →
      (initTiktokUpload env).initCalls = 1 ∧
      (initTiktokUpload env).result = none) ∧
    (initTiktokUpload env).initCalls ≤ 2 := by
  by_cases hre : refreshTiktokToken env 0 = true
  · rcases h2 : env.initResp 1 with _ | ⟨code2, data2⟩
    · have hval : initTiktokUpload env = ⟨none, 2, 1⟩ := by
        simp [initTiktokUpload, htok, h401, hre, h2]
      refine ⟨by rw [hval], fun _ => ⟨by rw [hval], fun d2 hd2 => ?_⟩,
        fun hfalse => ?_, by rw [hval]⟩
      · exact InitResp.noConfusion hd2
      · rw [hre] at hfalse
        exact Bool.noConfusion hfalse
    · have hval : initTiktokUpload env = ⟨finishInit code2 data2, 2, 1⟩ := by
        simp [initTiktokUpload, htok, h401, hre, h2]
      refine ⟨by rw [hval], fun _ => ⟨by rw [hval], fun d2 hd2 => ?_⟩,
        fun hfalse => ?_, by rw [hval]⟩
      · injection hd2 with hc hd
        rw [hval]
        show finishInit code2 data2 = none
        rw [hc]
        simp [finishInit]
      · rw [hre] at hfalse
        exact Bool.noConfusion hfalse
  · have hre' : refreshTiktokToken env 0 = false := by simpa using hre
    have hval : initTiktokUpload env = ⟨none, 1, 1⟩ := by
      simp [initTiktokUpload, htok, h401, hre']
    refine ⟨by rw [hval], fun htrue => ?_, fun _ => ⟨by rw [hval], by rw [hval]⟩,
      by rw [hval]; exact Nat.le_succ 1⟩
    rw [hre'] at htrue
    exact Bool.noConfusion htrue

/-- Witness for amended C5: 401 answered, refresh succeeds, the retried
Init is answered 401 again — two Init calls, one refresh, failure result. -/
def envSecondAuthFail : TikTokEnv :=
  { accessToken := true
    refreshToken := true
    initResp := fun _ => .resp 401 none
    refreshResp := fun _ => .resp true }

/-- Witness for C5's amended theorem at a concrete environment. -/
theorem init_auth_retry_policy_witness :
    (initTiktokUpload envSecondAuthFail).refreshCalls = 1 ∧
    (refreshTiktokToken envSecondAuthFail 0 = true →
      (initTiktokUpload envSecondAuthFail).initCalls = 2 ∧
      (∀ d2, envSecondAuthFail.initResp 1 = .resp 401 d2 →
        (initTiktokUpload envSecondAuthFail).result = none)) ∧
    (refreshTiktokToken envSecondAuthFail 0 = false →
      (initTiktokUpload envSecondAuthFail).initCalls = 1 ∧
      (initTiktokUpload envSecondAuthFail).result = none) ∧
    (initTiktokUpload envSecondAuthFail).initCalls ≤ 2 :=
  init_auth_retry_policy envSecondAuthFail none rfl rfl

/-! ### C6 helpers -/

/-- The poll loop sends at most fuel further requests. -/
theorem checkStatusLoop_le (resp : Nat → StatusResp) :
    ∀ (fuel reqs : Nat), (checkStatusLoop resp fuel reqs).2 ≤ reqs + fuel := by
  intro fuel
  induction fuel with
  | zero => intro reqs; simp [checkStatusLoop]
  | succ f ih =>
    intro reqs
    unfold checkStatusLoop
    rcases resp reqs with _ | _ | st
    · show reqs + 1 ≤ reqs + (f + 1)
      omega
    · show reqs + 1 ≤ reqs + (f + 1)
      omega
    · by_cases hc : (st == some "PUBLISH_COMPLETE") = true
      · simp only [hc, if_true]; omega
      · simp only [hc, Bool.false_eq_true, if_false]
        by_cases hf : (st == some "FAILED") = true
        · simp only [hf, if_true]; omega
        · simp only [hf, Bool.false_eq_true, if_false]
          have := ih (reqs + 1)
          omega

/-- One unfolding step of the poll loop. -/
theorem checkStatusLoop_succ (resp : Nat → StatusResp) (fuel reqs : Nat) :
    checkStatusLoop resp (fuel + 1) reqs =
      match resp reqs with
      | .exc => (false, reqs + 1)
      | .noData => (false, reqs + 1)
      | .data st =>
        if st == some "PUBLISH_COMPLETE" then (true, reqs + 1)
        else if st == some "FAILED" then (false, reqs + 1)
        else checkStatusLoop resp fuel (reqs + 1) := rfl

/-- Crossing t non-terminal responses just advances the loop by t. -/
theorem checkStatusLoop_skip (resp : Nat → StatusResp) :
    ∀ (t fuel reqs : Nat), t ≤ fuel →
      (∀ j, j < t → (resp (reqs + j)).isNonTerminal = true) →
      checkStatusLoop resp fuel reqs = checkStatusLoop resp (fuel - t) (reqs + t) := by
  intro t
  induction t with
  | zero => intro fuel reqs _ _; simp
  | succ s ih =>
    intro fuel reqs hle hnt
    rcases fuel with _ | f
    · omega
    have h0 : (resp (reqs + 0)).isNonTerminal = true := hnt 0 (by omega)
    rw [Nat.add_zero] at h0
    rcases hre : resp reqs with _ | _ | st
    · rw [hre] at h0; exact Bool.noConfusion h0
    · rw [hre] at h0; exact Bool.noConfusion h0
    rw [hre] at h0
    have hc : (st == some "PUBLISH_COMPLETE") = false := by
      rcases hb : st == some "PUBLISH_COMPLETE" with _ | _
      · rfl
      · rw [StatusResp.isNonTerminal, hb] at h0; exact Bool.noConfusion h0
    have hf : (st == some "FAILED") = false := by
      rcases hb : st == some "FAILED" with _ | _
      · rfl
      · rw [StatusResp.isNonTerminal, hb] at h0
        simp at h0
    show checkStatusLoop resp (f + 1) reqs = _
    rw [checkStatusLoop_succ, hre]
    simp only [hc, hf, Bool.false_eq_true, if_false]
    have hrec := ih f (reqs + 1) (by omega) (fun j hj => by
      have := hnt (j + 1) (by omega)
      have harr : reqs + (j + 1) = reqs + 1 + j := by omega
      rwa [harr] at this)
    rw [hrec]
    have e1 : f - s = f + 1 - (s + 1) := by omega
    have e2 : reqs + 1 + s = reqs + (s + 1) := by omega
    rw [e1, e2]

/-- C6: the status-poll loop sends at most 20 requests; if the first k - 1
responses are non-terminal and the k-th (k within the budget) is
PUBLISH_COMPLETE, it returns success after exactly k requests; if the
first m responses are non-terminal and the next is FAILED, it returns
failure immediately after m + 1 requests; and if all 20 responses within
the budget are non-terminal, it returns the non-success timeout outcome
after exactly 20 requests, never exceeding the budget. -/
theorem status_poll_bounded (resp : Nat → StatusResp) :
    (checkTiktokStatus resp).2 ≤ 20 ∧
    (∀ k, 1 ≤ k → k ≤ 20 →
      (∀ j, j < k - 1 → (resp j).isNonTerminal = true) →
      resp (k - 1) = .data (some "PUBLISH_COMPLETE") →
      checkTiktokStatus resp = (true, k)) ∧
    (∀ m, m < 20 →
      (∀ j, j < m → (resp j).isNonTerminal = true) →
      resp m = .data (some "FAILED") →
      checkTiktokStatus resp = (false, m + 1)) ∧
    ((∀ j, j < 20 → (resp j).isNonTerminal = true) →
      checkTiktokStatus resp = (false, 20)) := by
  refine ⟨?_, ?_, ?_, ?_⟩
  · have := checkStatusLoop_le resp 20 0
    simpa [checkTiktokStatus] using this
  · intro k hk1 hk20 hnt hcomp
    unfold checkTiktokStatus
    rw [checkStatusLoop_skip resp (k - 1) 20 0 (by omega)
      (fun j hj => by simpa using hnt j hj)]
    have hfuel : 20 - (k - 1) = (20 - k) + 1 := by omega
    rw [hfuel, Nat.zero_add, checkStatusLoop_succ, hcomp]
    have hbeq : ((some "PUBLISH_COMPLETE" : Option String)
        == some "PUBLISH_COMPLETE") = true := by decide
    have hk : k - 1 + 1 = k := by omega
    simp only [hbeq, if_true, hk]
  · intro m hm hnt hfail
    unfold checkTiktokStatus
    rw [checkStatusLoop_skip resp m 20 0 (by omega)
      (fun j hj => by simpa using hnt j hj)]
    have hfuel : 20 - m = (19 - m) + 1 := by omega
    rw [hfuel, Nat.zero_add, checkStatusLoop_succ, hfail]
    have hb1 : ((some "FAILED" : Option String)
        == some "PUBLISH_COMPLETE") = false := by decide
    have hb2 : ((some "FAILED" : Option String) == some "FAILED") = true := by
      decide
    simp only [hb1, hb2, Bool.false_eq_true, if_false, if_true]
  · intro hnt
    unfold checkTiktokStatus
    rw [checkStatusLoop_skip resp 20 20 0 (by omega)
      (fun j hj => by simpa using hnt j hj)]
    rfl

/-- A scripted Processing, Processing, Complete status sequence. -/
def respPPC : Nat → StatusResp := fun k =>
  if k < 2 then .data (some "PROCESSING_DOWNLOAD") else
  .data (some "PUBLISH_COMPLETE")

/-- Witness for C6: the scripted sequence Processing, Processing, Complete
makes exactly 3 requests and succeeds. -/
theorem status_poll_bounded_witness :
    checkTiktokStatus respPPC = (true, 3) :=
  (status_poll_bounded respPPC).2.1 3 (by decide) (by decide)
    (fun j hj => by interval_cases j <;> decide) (by decide)

/-- C7: the caption passed to the platform Init request is built from the
title and description and never exceeds 2200 characters; whenever the raw
title+description combination exceeds 2200 characters, the caption is its
truncation to exactly 2200 characters. -/
theorem caption_truncated (title description : String) :
    (buildCaption title description).length ≤ 2200 ∧
    ((rawCaption title description).length > 2200 →
      buildCaption title description =
        String.mk ((rawCaption title description).data.take 2200) ∧
      (buildCaption title description).length = 2200) := by
  have hlen : ∀ l : List Char, (String.mk l).length = l.length := fun l => rfl
  constructor
  · unfold buildCaption
    by_cases he : (rawCaption title description).data.isEmpty = true
    · simp only [he, if_true]
      decide
    · simp only [he, Bool.false_eq_true, if_false]
      rw [hlen]
      have := List.length_take 2200 (rawCaption title description).data
      omega
  · intro hbig
    have he : (rawCaption title description).data.isEmpty = false := by
      rcases hd : (rawCaption title description).data with _ | ⟨c, rest⟩
      · exfalso
        have : (rawCaption title description).length = 0 := by
          show (rawCaption title description).data.length = 0
          rw [hd]
          rfl
        omega
      · rw [List.isEmpty_cons]
    constructor
    · unfold buildCaption
      simp only [he, Bool.false_eq_true, if_false]
    · unfold buildCaption
      simp only [he, Bool.false_eq_true, if_false]
      rw [hlen, List.length_take]
      have : (rawCaption title description).data.length > 2200 := hbig
      omega

/-- A 2201-character title. -/
def longTitle : String := String.mk (List.replicate 2201 'a')

/-- Witness for C7: a title longer than 2200 characters yields a caption of
exactly 2200 characters. -/
theorem caption_truncated_witness :
    buildCaption longTitle "" =
      String.mk ((rawCaption longTitle "").data.take 2200) ∧
    (buildCaption longTitle "").length = 2200 :=
  (caption_truncated longTitle "").2 (by
    have h : rawCaption longTitle "" = longTitle := rfl
    rw [h]
    show (List.replicate 2201 'a').length > 2200
    rw [List.length_replicate]
    omega)

/-- A TTS endpoint that rejects every request. -/
def ttsAllFail : Nat → Except String Nat := fun _ => .error "request failed"

/-- C8 counterexample: when a per-sentence synthesis call raises, the
except/continue in generate_audio skips that sentence's duration while the
sentence stays in the returned list, so len(durations) ≠ len(sentences):
here one sentence, zero durations. -/
theorem narration_lengths_counterexample :
    (generateAudio ttsAllFail "abcdefghijk.").2.length = 1 ∧
    (generateAudio ttsAllFail "abcdefghijk.").1.length ≠
      (generateAudio ttsAllFail "abcdefghijk.").2.length := by
  constructor <;> decide

/-- filterMap with a some-valued function keeps the length. -/
theorem filterMap_length_all_some {α β : Type} (f : α → Option β) :
    ∀ l : List α, (∀ a ∈ l, (f a).isSome = true) →
      (l.filterMap f).length = l.length := by
  intro l
  induction l with
  | nil => intro _; rfl
  | cons a t ih =>
    intro h
    have ha := h a (List.mem_cons_self a t)
    rcases hf : f a with _ | b
    · rw [hf] at ha; exact Bool.noConfusion ha
    · rw [List.filterMap_cons, hf]
      simp only [List.length_cons]
      rw [ih (fun x hx => h x (List.mem_cons_of_mem a hx))]

/-- C8 amended: the narration result satisfies len(durations) ==
len(sentences) whenever every per-sentence synthesis call succeeds; a
per-sentence failure is skipped (except/continue), leaving fewer durations
than sentences. -/
theorem narration_lengths_match (tts : Nat → Except String Nat) (text : String)
    (h : ∀ i, i < (splitSentences text).length → ((tts i).toOption).isSome = true) :
    (generateAudio tts text).1.length = (generateAudio tts text).2.length := by
  unfold generateAudio
  simp only []
  rw [filterMap_length_all_some (fun i => (tts i).toOption) _
    (fun a ha => h a (List.mem_range.mp ha))]
  rw [List.length_range]

/-- A TTS endpoint that accepts every request with a 2-second segment. -/
def ttsAllOk : Nat → Except String Nat := fun _ => .ok 2

/-- Witness for amended C8 at a concrete text and an all-succeeding TTS. -/
theorem narration_lengths_match_witness :
    (generateAudio ttsAllOk "abcdefghijk.").1.length =
      (generateAudio ttsAllOk "abcdefghijk.").2.length :=
  narration_lengths_match ttsAllOk "abcdefghijk." (by decide)

/-- C10: Pipeline.__init__ never completes: with a truthy PromptConfig it
raises TypeError, because it calls MediaCollector(prompt_config=...) and
MediaCollector.__init__ only accepts target_width, target_height and
image_source; with a falsy one it raises ValueError (line 25).  So no
Pipeline instance exists on which run could be invoked. -/
theorem pipeline_init_always_raises :
    pipelineInit true = .error .typeError ∧
    pipelineInit false = .error .valueError := by
  constructor <;> rfl

end PosterBot
